import Mathlib

/-!
Verification of the smart-qa-portal question-processing core.

The definitions below are a shallow embedding of the Python sources
`src/services.py` and `src/utils.py`: `HTTPException` raising becomes an
`Except HTTPError` result, Python strings become Lean `String`s (sequences of
code points, matching Python `len`/indexing on the ASCII inputs used here),
`str.strip()` becomes `pyStrip` over the ASCII whitespace set, and the two
regular expressions of `sanitize_input` become the recursive `removeTags`
and a character filter.
-/

namespace SmartQA

/-- Error carried by a raised FastAPI `HTTPException`: a status code and a
detail message. -/
structure HTTPError where
  status : Nat
  detail : String
  deriving DecidableEq, Repr

/-- Whitespace characters stripped by Python `str.strip()` (ASCII range). -/
def isPySpace (c : Char) : Bool :=
  c = ' ' || c = '\t' || c = '\n' || c = '\r' || c = '\x0b' || c = '\x0c'

/-- Python `str.strip()` on a character list: drop whitespace from the front,
then from the back. -/
def pyStrip (cs : List Char) : List Char :=
  List.rdropWhile isPySpace (List.dropWhile isPySpace cs)

/-- Python truthiness test `not s.strip()`: the text is blank after trimming. -/
def isBlank (s : String) : Bool :=
  (pyStrip s.data).isEmpty

/-- Python `str.lower()` (ASCII range). -/
def pyLower (s : String) : String :=
  ⟨s.data.map Char.toLower⟩

/-- Substring occurrence on character lists (Python `needle in hay`). -/
def containsList (needle : List Char) : List Char → Bool
  | [] => needle.isEmpty
  | c :: t => needle.isPrefixOf (c :: t) || containsList needle t

/-- Python `needle in hay` on strings. -/
def strContains (hay needle : String) : Bool :=
  containsList needle.data hay.data

/-- Fixed category list of `ModelService.categorize_question`
(`src/services.py`), order-significant. -/
def categories : List String :=
  ["networking", "security", "storage", "virtualization"]

namespace ModelService

/-- Embedding of `ModelService.categorize_question` (`src/services.py`):
readiness check, blank check, then the length-mod placeholder rule.  The
`model_loaded` flag of the service object is passed explicitly. -/
def categorize_question (model_loaded : Bool) (question : String) :
    Except HTTPError String :=
  if !model_loaded then
    .error ⟨503, "Model not available"⟩
  else if isBlank question then
    .error ⟨400, "Question cannot be empty"⟩
  else
    .ok (categories.getD (question.length % categories.length) "")

end ModelService

/-- Embedding of the pydantic `ResponseModel` (`src/services.py`). -/
structure ResponseModel where
  category : String
  answer : String
  documentation_links : List String
  troubleshooting_steps : List String
  deriving DecidableEq, Repr

namespace QuestionProcessor

/-- Embedding of `QuestionProcessor._generate_answer` (`src/services.py`):
`answers.get(category, default)` over the static answer table. -/
def generate_answer (category : String) : String :=
  if category = "networking" then
    "For networking issues, check router settings and firewall rules."
  else if category = "security" then
    "Security problems often require reviewing access controls and encryption protocols."
  else if category = "storage" then
    "Storage issues may involve disk space management or RAID configuration."
  else if category = "virtualization" then
    "Virtualization problems typically relate to resource allocation or hypervisor settings."
  else
    "No specific guidance available for this category"

/-- Embedding of `QuestionProcessor._generate_documentation_links`
(`src/services.py`): `links.get(category, [])`; the values are bare URL
strings. -/
def generate_documentation_links (category : String) : List String :=
  if category = "networking" then
    ["https://docs.example.com/networking-guide",
     "https://support.example.com/network-troubleshooting"]
  else if category = "security" then
    ["https://docs.example.com/security-best-practices",
     "https://support.example.com/secure-configuration"]
  else if category = "storage" then
    ["https://docs.example.com/storage-optimization",
     "https://support.example.com/storage-diagnosis"]
  else if category = "virtualization" then
    ["https://docs.example.com/virtualization-tips",
     "https://support.example.com/vm-configuration"]
  else
    []

/-- Embedding of `QuestionProcessor._generate_troubleshooting_steps`
(`src/services.py`): `steps.get(category, [])`. -/
def generate_troubleshooting_steps (category : String) : List String :=
  if category = "networking" then
    ["Check physical connections and router LEDs",
     "Restart network devices and test connectivity",
     "Verify firewall rules and port configurations"]
  else if category = "security" then
    ["Review access control lists and permissions",
     "Check for unauthorized device connections",
     "Verify encryption protocols and certificate validity"]
  else if category = "storage" then
    ["Monitor disk space and storage quotas",
     "Check RAID array status and rebuild if needed",
     "Verify storage path configurations and permissions"]
  else if category = "virtualization" then
    ["Check resource allocation for virtual machines",
     "Verify hypervisor version and patches",
     "Monitor VM performance counters for bottlenecks"]
  else
    []

/-- Embedding of `QuestionProcessor.process_question` (`src/services.py`).
The Python body runs inside `try`; its trailing `except Exception` arm also
catches `fastapi.HTTPException` (a subclass of `Exception`), so every raised
error — including the 400 blank-input and the 503 unavailable errors raised
in the body — is replaced by the generic 500.  The embedding reproduces this:
any `.error` of the body is mapped to the generic error. -/
def process_question (model_loaded : Bool) (question : String) :
    Except HTTPError ResponseModel :=
  let body : Except HTTPError ResponseModel :=
    if isBlank question then
      .error ⟨400, "Question cannot be empty"⟩
    else
      match ModelService.categorize_question model_loaded question with
      | .error e => .error e
      | .ok category =>
          .ok ⟨category, generate_answer category,
               generate_documentation_links category,
               generate_troubleshooting_steps category⟩
  match body with
  | .ok r => .ok r
  | .error _ => .error ⟨500, "Internal server error"⟩

end QuestionProcessor

/-- Prohibited-word set of `QuestionValidator` (`src/utils.py`). -/
def prohibited_words : List String :=
  ["spam", "illegal", "malware"]

/-- Technical-keyword set of `QuestionValidator` (`src/utils.py`). -/
def technical_keywords : List String :=
  ["how", "why", "what", "explain", "steps", "guide"]

namespace QuestionValidator

/-- Embedding of `QuestionValidator.validate_question` (`src/utils.py`): the
raised `ValueError`s are caught by the method's own handler and re-raised as
`HTTPException(400, str(e))`, so both failures surface with status 400 and the
original message.  The technical-keyword check only logs a warning and does
not alter the result. -/
def validate_question (value : String) : Except HTTPError String :=
  if isBlank value then
    .error ⟨400, "Question cannot be empty"⟩
  else if prohibited_words.any (fun w => strContains (pyLower value) w) then
    .error ⟨400, "Question contains prohibited content"⟩
  else
    .ok value

/-- Condition under which `validate_question` logs its advisory warning: the
lowercased text contains no technical keyword.  Logging only; never an
error. -/
def technical_warning (value : String) : Bool :=
  !(technical_keywords.any (fun w => strContains (pyLower value) w))

end QuestionValidator

/-- Record shape returned by `DocumentationHelper.get_documentation_links`
(`src/utils.py`): a title paired with a URL. -/
structure DocLink where
  title : String
  url : String
  deriving DecidableEq, Repr

namespace DocumentationHelper

/-- Static table `self.documentation_links` of `DocumentationHelper`
(`src/utils.py`). -/
def documentation_links_table (category : String) : Option String :=
  if category = "python" then some "https://docs.python.org/3/"
  else if category = "machine-learning" then some "https://machinelearning.com/"
  else if category = "api" then some "https://api-reference.example.com/"
  else none

/-- Embedding of `DocumentationHelper.get_documentation_links`
(`src/utils.py`): unknown categories raise a `ValueError` that the method's
own handler catches, returning `[]`. -/
def get_documentation_links (category : String) : List DocLink :=
  match documentation_links_table category with
  | some url => [⟨"Documentation for " ++ category, url⟩]
  | none => []

end DocumentationHelper

/-- Word characters of the `\w` class in `sanitize_input`'s whitelist regex
(ASCII range). -/
def isWordChar (c : Char) : Bool :=
  c.isAlpha || c.isDigit || c = '_'

/-- Punctuation whitelist of `sanitize_input` (`src/utils.py`). -/
def allowedPunct : List Char :=
  ['-', '.', ',', '!', '?', ';', ':', '(', ')', '{', '}', '[', ']']

/-- Characters kept by the second regex substitution of `sanitize_input`:
word characters, whitespace, and the fixed punctuation set. -/
def isAllowedChar (c : Char) : Bool :=
  isWordChar c || isPySpace c || allowedPunct.contains c

/-- Scanner for the leftmost, non-overlapping removal of `<[^>]+>` matches,
the first regex substitution of `sanitize_input` (`src/utils.py`).  The state
`none` means scanning outside a candidate match; `some buf` means a `<` was
seen and `buf` holds (reversed) the non-`>` characters read since.  A `>`
with a non-empty buffer completes a match, which is dropped; a `>` right
after the `<` means no match there (the pattern needs at least one `[^>]`
character), so both characters are kept; at the end of input an open
candidate is emitted verbatim, as the regex finds no match in it (no `>`
occurs in or after the buffered run). -/
def removeTagsAux : List Char → Option (List Char) → List Char
  | [], none => []
  | [], some buf => '<' :: buf.reverse
  | c :: t, none =>
      if c = '<' then removeTagsAux t (some [])
      else c :: removeTagsAux t none
  | c :: t, some buf =>
      if c = '>' then
        if buf.isEmpty then '<' :: '>' :: removeTagsAux t none
        else removeTagsAux t none
      else removeTagsAux t (some (c :: buf))

/-- Removal of `<[^>]+>` matches, as `re.sub(..., '', text)` does in
`sanitize_input`. -/
def removeTags (cs : List Char) : List Char :=
  removeTagsAux cs none

/-- Embedding of `sanitize_input` (`src/utils.py`): `None` becomes the empty
string; otherwise remove tags, filter to the whitelist, and strip.  The
function is total, modelling the catch-all that returns `""` on any internal
fault. -/
def sanitize_input : Option String → String
  | none => ""
  | some text => ⟨pyStrip ((removeTags text.data).filter isAllowedChar)⟩

/-- C1: with the model loaded and the question non-blank,
`categorize_question` succeeds with the category at index `length mod 4` of
the fixed ordered list `[networking, security, storage, virtualization]`;
being a pure function of the text, the result depends only on the text. -/
theorem categorize_question_mod4 (t : String) (h : isBlank t = false) :
    ModelService.categorize_question true t =
      Except.ok
        (List.getD ["networking", "security", "storage", "virtualization"]
          (t.length % 4) "") := by
  simp [ModelService.categorize_question, h, categories]

/-- Witness for C1 at the four-character input `abcd` (index `4 mod 4 = 0`). -/
theorem categorize_question_mod4_witness :
    isBlank "abcd" = false ∧
      ModelService.categorize_question true "abcd" =
        Except.ok
          (List.getD ["networking", "security", "storage", "virtualization"]
            ("abcd".length % 4) "") :=
  ⟨rfl, categorize_question_mod4 "abcd" rfl⟩

/-- C4: with the model not loaded, `categorize_question` fails with the 503
service-unavailable error for every text, blank or not (readiness is checked
first); with the model loaded and the text blank after trimming, it fails
with the 400 empty-question error. -/
theorem categorize_question_errors (q : String) :
    ModelService.categorize_question false q =
        Except.error ⟨503, "Model not available"⟩ ∧
      (isBlank q = true →
        ModelService.categorize_question true q =
          Except.error ⟨400, "Question cannot be empty"⟩) := by
  constructor
  · simp [ModelService.categorize_question]
  · intro h
    simp [ModelService.categorize_question, h]

/-- Witness for C4 at the blank input `" "`: unready gives 503 even though
the text is blank, and ready-plus-blank gives 400. -/
theorem categorize_question_errors_witness :
    ModelService.categorize_question false " " =
        Except.error ⟨503, "Model not available"⟩ ∧
      isBlank " " = true ∧
      ModelService.categorize_question true " " =
        Except.error ⟨400, "Question cannot be empty"⟩ :=
  ⟨(categorize_question_errors " ").1, rfl,
    (categorize_question_errors " ").2 rfl⟩

/-- C7: every text that is blank after trimming (empty or whitespace-only)
is rejected by the validator with the 400 empty-question error. -/
theorem validate_question_empty (t : String) (h : isBlank t = true) :
    QuestionValidator.validate_question t =
      Except.error ⟨400, "Question cannot be empty"⟩ := by
  simp [QuestionValidator.validate_question, h]

/-- Witness for C7 at the empty string and at a whitespace-only string. -/
theorem validate_question_empty_witness :
    isBlank "" = true ∧
      QuestionValidator.validate_question "" =
        Except.error ⟨400, "Question cannot be empty"⟩ ∧
      isBlank "   " = true ∧
      QuestionValidator.validate_question "   " =
        Except.error ⟨400, "Question cannot be empty"⟩ :=
  ⟨rfl, validate_question_empty "" rfl, rfl, validate_question_empty "   " rfl⟩

/-- C8: every non-blank text whose lowercase form contains `spam`,
`illegal`, or `malware` as a substring — that is, any member of the
configured prohibited-word set — is rejected by the validator with the 400
prohibited-content error. -/
theorem validate_question_prohibited (t : String) (h1 : isBlank t = false)
    (h2 : strContains (pyLower t) "spam" = true ∨
      strContains (pyLower t) "illegal" = true ∨
      strContains (pyLower t) "malware" = true) :
    QuestionValidator.validate_question t =
      Except.error ⟨400, "Question contains prohibited content"⟩ := by
  have hany : prohibited_words.any (fun w => strContains (pyLower t) w) = true := by
    simp only [prohibited_words, List.any_cons, List.any_nil, Bool.or_eq_true,
      Bool.or_false]
    tauto
  simp [QuestionValidator.validate_question, h1, hany]

/-- Witness for C8 at an input containing `SPAM` (matched
case-insensitively). -/
theorem validate_question_prohibited_witness :
    isBlank "This has SPAM inside" = false ∧
      strContains (pyLower "This has SPAM inside") "spam" = true ∧
      QuestionValidator.validate_question "This has SPAM inside" =
        Except.error ⟨400, "Question contains prohibited content"⟩ :=
  ⟨rfl, rfl,
    validate_question_prohibited "This has SPAM inside" rfl (Or.inl rfl)⟩

/-- C9: every non-blank text containing no prohibited word passes validation
and is returned unchanged; the conclusion holds whether or not the text
contains a technical keyword, so the missing-keyword condition (the
`technical_warning` check) can only ever log, never fail. -/
theorem validate_question_ok (t : String) (h1 : isBlank t = false)
    (h2 : prohibited_words.any (fun w => strContains (pyLower t) w) = false) :
    QuestionValidator.validate_question t = Except.ok t := by
  simp [QuestionValidator.validate_question, h1, h2]

/-- Witness for C9 at `banana pancakes`, which contains none of the
technical keywords (the advisory warning fires) yet validates successfully
and unchanged. -/
theorem validate_question_ok_witness :
    QuestionValidator.technical_warning "banana pancakes" = true ∧
      isBlank "banana pancakes" = false ∧
      QuestionValidator.validate_question "banana pancakes" =
        Except.ok "banana pancakes" :=
  ⟨rfl, rfl, validate_question_ok "banana pancakes" rfl rfl⟩

/-- C2 (code bug): every error produced by `process_question` is the generic
500 internal-server error.  The `except Exception` arm of the Python method
also catches `HTTPException`, so the specific 400 empty-input and 503
service-unavailable errors raised inside the body never reach the caller,
contrary to the documented propagation policy. -/
theorem process_question_error_always_500 (loaded : Bool) (q : String)
    (e : HTTPError)
    (h : QuestionProcessor.process_question loaded q = Except.error e) :
    e = ⟨500, "Internal server error"⟩ := by
  unfold QuestionProcessor.process_question at h
  split at h
  · simp only [] at h
    exact (Except.error.inj h).symm
  · cases hcat : ModelService.categorize_question loaded q with
    | error e2 =>
        rw [hcat] at h
        simp only [] at h
        exact (Except.error.inj h).symm
    | ok cat =>
        rw [hcat] at h
        simp only [] at h
        exact absurd h (by simp)

/-- Witness for C2 at an unready model: the caller sees a 500, not the 503
raised by the classifier. -/
theorem process_question_error_always_500_witness :
    QuestionProcessor.process_question false "hi there" =
        Except.error ⟨500, "Internal server error"⟩ ∧
      (⟨500, "Internal server error"⟩ : HTTPError) =
        ⟨500, "Internal server error"⟩ :=
  ⟨rfl,
    process_question_error_always_500 false "hi there"
      ⟨500, "Internal server error"⟩ rfl⟩

/-- C3 counterexample: the scenario input `"how do I fix my network"` has
length 23, not 24, so the classifier assigns `virtualization`
(`23 mod 4 = 3`), not `networking`. -/
theorem network_question_not_networking :
    ("how do I fix my network" : String).length = 23 ∧
      ModelService.categorize_question true "how do I fix my network" =
        Except.ok "virtualization" ∧
      ("virtualization" : String) ≠ "networking" :=
  ⟨rfl, rfl, by decide⟩

/-- C3 amended: on the input `"how do I fix my network"` (length 23,
`23 mod 4 = 3`) the pipeline succeeds with category `virtualization`, the
virtualization answer, its two documentation links, and its three
troubleshooting steps, the first being
`"Check resource allocation for virtual machines"`. -/
theorem network_question_bundle :
    QuestionProcessor.process_question true "how do I fix my network" =
      Except.ok
        ⟨"virtualization",
          "Virtualization problems typically relate to resource allocation or hypervisor settings.",
          ["https://docs.example.com/virtualization-tips",
           "https://support.example.com/vm-configuration"],
          ["Check resource allocation for virtual machines",
           "Verify hypervisor version and patches",
           "Monitor VM performance counters for bottlenecks"]⟩ := rfl

/-- C5: the three knowledge-base lookups are pure and total.  Every category
of the known set gets a non-empty answer, exactly two documentation links,
and exactly three troubleshooting steps — listed here explicitly in their
fixed order — while every unknown category gets the generic
no-specific-guidance answer and empty sequences. -/
theorem knowledge_base_total (c : String) :
    (c ∈ categories →
      QuestionProcessor.generate_answer c ≠ "" ∧
        (QuestionProcessor.generate_documentation_links c).length = 2 ∧
        (QuestionProcessor.generate_troubleshooting_steps c).length = 3) ∧
      (c ∉ categories →
        QuestionProcessor.generate_answer c =
            "No specific guidance available for this category" ∧
          QuestionProcessor.generate_documentation_links c = [] ∧
          QuestionProcessor.generate_troubleshooting_steps c = []) ∧
      QuestionProcessor.generate_documentation_links "networking" =
        ["https://docs.example.com/networking-guide",
         "https://support.example.com/network-troubleshooting"] ∧
      QuestionProcessor.generate_documentation_links "security" =
        ["https://docs.example.com/security-best-practices",
         "https://support.example.com/secure-configuration"] ∧
      QuestionProcessor.generate_documentation_links "storage" =
        ["https://docs.example.com/storage-optimization",
         "https://support.example.com/storage-diagnosis"] ∧
      QuestionProcessor.generate_documentation_links "virtualization" =
        ["https://docs.example.com/virtualization-tips",
         "https://support.example.com/vm-configuration"] ∧
      QuestionProcessor.generate_troubleshooting_steps "networking" =
        ["Check physical connections and router LEDs",
         "Restart network devices and test connectivity",
         "Verify firewall rules and port configurations"] ∧
      QuestionProcessor.generate_troubleshooting_steps "security" =
        ["Review access control lists and permissions",
         "Check for unauthorized device connections",
         "Verify encryption protocols and certificate validity"] ∧
      QuestionProcessor.generate_troubleshooting_steps "storage" =
        ["Monitor disk space and storage quotas",
         "Check RAID array status and rebuild if needed",
         "Verify storage path configurations and permissions"] ∧
      QuestionProcessor.generate_troubleshooting_steps "virtualization" =
        ["Check resource allocation for virtual machines",
         "Verify hypervisor version and patches",
         "Monitor VM performance counters for bottlenecks"] := by
  refine ⟨?_, ?_, rfl, rfl, rfl, rfl, rfl, rfl, rfl, rfl⟩
  · intro hc
    simp only [categories, List.mem_cons, List.mem_singleton,
      List.not_mem_nil, or_false] at hc
    rcases hc with rfl | rfl | rfl | rfl <;> exact ⟨by decide, rfl, rfl⟩
  · intro hc
    simp only [categories, List.mem_cons, List.mem_singleton,
      List.not_mem_nil, or_false, not_or] at hc
    obtain ⟨h1, h2, h3, h4⟩ := hc
    exact ⟨by simp [QuestionProcessor.generate_answer, h1, h2, h3, h4],
      by simp [QuestionProcessor.generate_documentation_links, h1, h2, h3, h4],
      by simp [QuestionProcessor.generate_troubleshooting_steps, h1, h2, h3, h4]⟩

/-- Witness for C5 at the known category `networking` and the unknown
category `cooking`. -/
theorem knowledge_base_total_witness :
    QuestionProcessor.generate_answer "networking" ≠ "" ∧
      QuestionProcessor.generate_answer "cooking" =
        "No specific guidance available for this category" :=
  ⟨((knowledge_base_total "networking").1 (by decide)).1,
    ((knowledge_base_total "cooking").2.1 (by decide)).1⟩

/-- C6 counterexample: at the known category `networking`, the record-shaped
lookup `DocumentationHelper.get_documentation_links` returns no records at
all, while the lookup the pipeline actually uses returns the two bare URL
strings. -/
theorem documentation_links_shape_counterexample :
    DocumentationHelper.get_documentation_links "networking" = [] ∧
      QuestionProcessor.generate_documentation_links "networking" =
        ["https://docs.example.com/networking-guide",
         "https://support.example.com/network-troubleshooting"] :=
  ⟨rfl, rfl⟩

/-- C6 amended: for every known classifier category the pipeline's lookup
returns an ordered pair of bare URL strings, and the title/url record shape
exists only in `DocumentationHelper.get_documentation_links`, whose own
known set is `python`, `machine-learning`, `api` (one record each); for the
classifier's categories that helper returns the empty sequence. -/
theorem documentation_links_shape (c : String) :
    (c ∈ categories →
      (∃ u₁ u₂ : String,
          QuestionProcessor.generate_documentation_links c = [u₁, u₂]) ∧
        DocumentationHelper.get_documentation_links c = []) ∧
      DocumentationHelper.get_documentation_links "python" =
        [⟨"Documentation for python", "https://docs.python.org/3/"⟩] ∧
      DocumentationHelper.get_documentation_links "machine-learning" =
        [⟨"Documentation for machine-learning", "https://machinelearning.com/"⟩] ∧
      DocumentationHelper.get_documentation_links "api" =
        [⟨"Documentation for api", "https://api-reference.example.com/"⟩] := by
  refine ⟨?_, rfl, rfl, rfl⟩
  intro hc
  simp only [categories, List.mem_cons, List.mem_singleton,
    List.not_mem_nil, or_false] at hc
  rcases hc with rfl | rfl | rfl | rfl <;>
    exact ⟨⟨_, _, rfl⟩, rfl⟩

/-- Witness for C6 amended at the known category `networking`. -/
theorem documentation_links_shape_witness :
    (∃ u₁ u₂ : String,
        QuestionProcessor.generate_documentation_links "networking" = [u₁, u₂]) ∧
      DocumentationHelper.get_documentation_links "networking" = [] :=
  (documentation_links_shape "networking").1 (by decide)

/-- Characters surviving `pyStrip` all come from the original list. -/
theorem mem_of_mem_pyStrip {c : Char} {xs : List Char} (h : c ∈ pyStrip xs) :
    c ∈ xs := by
  unfold pyStrip at h
  have h2 :=
    ((List.rdropWhile_prefix isPySpace (List.dropWhile isPySpace xs)).sublist).mem h
  exact ((List.dropWhile_suffix isPySpace).sublist).mem h2

/-- Stripping is idempotent: a stripped list has no leading or trailing
whitespace left to remove. -/
theorem pyStrip_idem (xs : List Char) : pyStrip (pyStrip xs) = pyStrip xs := by
  unfold pyStrip
  have h1 : List.dropWhile isPySpace
      (List.rdropWhile isPySpace (List.dropWhile isPySpace xs)) =
      List.rdropWhile isPySpace (List.dropWhile isPySpace xs) := by
    cases hrw : List.rdropWhile isPySpace (List.dropWhile isPySpace xs) with
    | nil => rfl
    | cons a as =>
      obtain ⟨ts, hts⟩ :=
        List.rdropWhile_prefix isPySpace (List.dropWhile isPySpace xs)
      rw [hrw] at hts
      have hne : List.dropWhile isPySpace xs ≠ [] := by
        rw [← hts]; simp
      have hz := List.head_dropWhile_not isPySpace xs hne
      have hcons : List.dropWhile isPySpace xs = a :: (as ++ ts) := by
        rw [← hts]; rfl
      have hha : (List.dropWhile isPySpace xs).head hne = a := by
        simp [hcons]
      rw [hha] at hz
      simp [List.dropWhile_cons, hz]
  rw [h1, List.rdropWhile_idempotent]

/-- C10: the sanitizer is a total function (no input makes it fail, matching
the catch-all that would return `""`), it is exactly the pipeline
tag-removal → whitelist filter → strip, every character of its output is in
the whitelist, its output carries no leading or trailing whitespace
(re-stripping changes nothing), and the `None` input yields `""`. -/
theorem sanitize_input_never_fails (t : String) :
    sanitize_input (some t) =
        ⟨pyStrip ((removeTags t.data).filter isAllowedChar)⟩ ∧
      (∀ c ∈ (sanitize_input (some t)).data, isAllowedChar c = true) ∧
      pyStrip (sanitize_input (some t)).data = (sanitize_input (some t)).data ∧
      sanitize_input none = "" := by
  refine ⟨rfl, ?_, ?_, rfl⟩
  · intro c hc
    have hc2 : c ∈ (removeTags t.data).filter isAllowedChar :=
      mem_of_mem_pyStrip hc
    exact (List.mem_filter.mp hc2).2
  · exact pyStrip_idem _

end SmartQA
